import Mathlib

/-!
# Verification of the_brass combat core

Shallow embedding of the ship-combat core of `the_brass` (Rust). The game's
integer type `UInt` is `u32`; every quantity below is a `Nat` holding a value
below `2^32`, with an explicit `% 2^32` at the operations where the Rust code
performs an unguarded `u32` addition or multiplication that can wrap (all
subtractions in the source are branch-guarded, so `Nat` truncated subtraction
coincides with the source's behaviour on the guarded paths).

Sources embedded:
* `src/game/combat/ships/ship_template.rs` (`ShipTemplate`, `TemplateBuf`)
* `src/game/combat/ships/ship.rs` (`Ship`)
* `src/game/combat/ships/reduced_ship.rs` (`ReducedShip`)
* `src/game/combat/ships/attacks.rs` (`Attack`, `TargetedAttack`, `ReducedAttacks`)
* `src/game/combat/ships/weapons/*.rs` (`DistinctWeapon`, `ReducedWeapon`,
  `TargetedDamage`)
* `src/game/combat/fleets.rs` (`RepeatedShip`, `ShipGroup`, `Fleet`)
-/

namespace TheBrass

/-- `2^32`, the modulus of the game's `UInt = u32`. -/
def U32MOD : Nat := 4294967296

/-- `ship_error.rs`: the `ShipError` enum. -/
inductive ShipError where
  | FuelError
  | ShieldError
  | HullError
deriving DecidableEq, Repr

/-- `ship_template.rs`: the `ShipTemplate` struct. All fields are `UInt`
(`ShipSize`, `FuelUnit`, `HullPoint`, `ShieldPoint`, `Mass`, `DamagePoint`
are all aliases of `UInt = u32`). -/
structure ShipTemplate where
  ship_size_class : Nat
  fuel_capacity : Nat
  fuel_use : Nat
  max_hull : Nat
  shield_capacity : Nat
  shield_recovery : Nat
  cargo_capacity : Nat
  smallest_target : Nat
  attack_damage : Nat
deriving DecidableEq, Repr

namespace ShipTemplate

/-- `ShipTemplate::new` (ship_template.rs:81-108): validates
`fuel_use ≤ fuel_capacity` and `shield_recovery ≤ shield_points`,
then builds the template via `from_parts`. -/
def new (ship_size_class fuel_capacity fuel_use hull_points shield_points
    shield_recovery cargo_capacity smallest_target attack_damage : Nat) :
    Except ShipError ShipTemplate :=
  if fuel_use > fuel_capacity then
    .error .FuelError
  else if shield_recovery > shield_points then
    .error .ShieldError
  else
    .ok {
      ship_size_class := ship_size_class
      fuel_capacity := fuel_capacity
      fuel_use := fuel_use
      max_hull := hull_points
      shield_capacity := shield_points
      shield_recovery := shield_recovery
      cargo_capacity := cargo_capacity
      smallest_target := smallest_target
      attack_damage := attack_damage }

end ShipTemplate

/-- `attacks.rs`: the `Attack` struct. -/
structure Attack where
  parralel_attacks : Nat
  damage_per_attack : Nat
deriving DecidableEq, Repr

namespace Attack

/-- `Attack::sum_damage` (attacks.rs:118-120): `parralel_attacks *
damage_per_attack`, an unguarded `u32` multiplication, hence the modulus. -/
def sum_damage (a : Attack) : Nat :=
  a.parralel_attacks * a.damage_per_attack % U32MOD

/-- `Attack::same_damage` (attacks.rs:122-124). -/
def same_damage (a other : Attack) : Bool :=
  a.damage_per_attack == other.damage_per_attack

end Attack

/-- `attacks.rs`: the `TargetedAttack` struct. -/
structure TargetedAttack where
  attack : Attack
  smallest_target : Nat
deriving DecidableEq, Repr

namespace TargetedAttack

/-- `TargetedAttack::valid_target` (attacks.rs:43-45). -/
def valid_target (a : TargetedAttack) (target_size : Nat) : Bool :=
  a.smallest_target ≤ target_size

/-- `TargetedAttack::same_target` (attacks.rs:52-54). -/
def same_target (a other : TargetedAttack) : Bool :=
  a.smallest_target == other.smallest_target

/-- The `Ord` instance of `TargetedAttack` (attacks.rs:63-76) as a `≤` test:
lexicographic on `(smallest_target, damage_per_attack, parralel_attacks)`. -/
def cmpLe (a b : TargetedAttack) : Bool :=
  a.smallest_target < b.smallest_target ∨
    (a.smallest_target = b.smallest_target ∧
      (a.attack.damage_per_attack < b.attack.damage_per_attack ∨
        (a.attack.damage_per_attack = b.attack.damage_per_attack ∧
          a.attack.parralel_attacks ≤ b.attack.parralel_attacks)))

end TargetedAttack

/-- `ship.rs`: the `Ship` struct. The `Rc<ShipTemplate>` is modelled by an
immutable `ShipTemplate` value (`Rc` sharing is value equality here because
templates are never mutated after construction). -/
structure Ship where
  template : ShipTemplate
  fuel_units : Nat
  hull_points : Nat
  shield_points : Nat
deriving DecidableEq, Repr

namespace Ship

/-- `Ship::new` (ship.rs:54-78): checks fuel, hull and shield against the
template's capacities, in that order. -/
def new (template : ShipTemplate) (fuel_units hull_points shield_points : Nat) :
    Except ShipError Ship :=
  if fuel_units > template.fuel_capacity then
    .error .FuelError
  else if hull_points > template.max_hull then
    .error .HullError
  else if shield_points > template.shield_capacity then
    .error .ShieldError
  else
    .ok ⟨template, fuel_units, hull_points, shield_points⟩

/-- `Ship::set_template` (ship.rs:91-105). On error the ship is unchanged
(the Rust mutates nothing before the checks pass), so the model returns the
updated ship only in the `ok` case. -/
def set_template (s : Ship) (val : ShipTemplate) : Except ShipError Ship :=
  if s.fuel_units > val.fuel_capacity then
    .error .FuelError
  else if s.hull_points > val.max_hull then
    .error .HullError
  else if s.shield_points > val.shield_capacity then
    .error .ShieldError
  else
    .ok { s with template := val }

/-- `Ship::set_fuel_units` (ship.rs:119-125). -/
def set_fuel_units (s : Ship) (val : Nat) : Except ShipError Ship :=
  if val > s.template.fuel_capacity then .error .FuelError
  else .ok { s with fuel_units := val }

/-- `Ship::set_hull_points` (ship.rs:139-145). -/
def set_hull_points (s : Ship) (val : Nat) : Except ShipError Ship :=
  if val > s.template.max_hull then .error .HullError
  else .ok { s with hull_points := val }

/-- `Ship::set_shield_points` (ship.rs:159-165). -/
def set_shield_points (s : Ship) (val : Nat) : Except ShipError Ship :=
  if val > s.template.shield_capacity then .error .ShieldError
  else .ok { s with shield_points := val }

/-- `Ship::is_alive` (ship.rs:167-169). -/
def is_alive (s : Ship) : Bool :=
  s.hull_points != 0

/-- `Ship::regenerate_shields` (ship.rs:172-178): adds `shield_recovery`
(an unguarded `u32` addition, hence the modulus) then clamps at
`shield_capacity`. -/
def regenerate_shields (s : Ship) : Ship :=
  let sp := (s.shield_points + s.template.shield_recovery) % U32MOD
  if sp > s.template.shield_capacity then
    { s with shield_points := s.template.shield_capacity }
  else
    { s with shield_points := sp }

/-- `Ship::simulate_damage` (ship.rs:185-204): returns
`(hull_points, shield_points, leftover_damage)`. All subtractions are
branch-guarded in the source, so `Nat` subtraction is exact here. -/
def simulate_damage (s : Ship) (damage : Nat) : Nat × Nat × Nat :=
  if damage < s.shield_points then
    (s.hull_points, s.shield_points - damage, 0)
  else
    let damage := damage - s.shield_points
    if damage < s.hull_points then
      (s.hull_points - damage, 0, 0)
    else
      (0, 0, damage - s.hull_points)

/-- `Ship::resolve_damage` (ship.rs:211-221): commits the simulation to the
hull and shields and returns the unused damage. -/
def resolve_damage (s : Ship) (damage : Nat) : Ship × Nat :=
  let sim := s.simulate_damage damage
  ({ s with hull_points := sim.1, shield_points := sim.2.1 }, sim.2.2)

/-- `Ship::resolve_attacks` (ship.rs:228-250): while the ship is alive, takes
the next attack whose `smallest_target` can target this ship's size class,
resolves its `sum_damage` against the ship, and rewrites that entry's
`parralel_attacks` to `leftover / damage_per_attack` (in Rust a
`damage_per_attack` of 0 would panic on division; Lean's `Nat` division
totalises it as 0). Entries after the point where the ship dies are left
untouched, as is the whole list when the ship is dead on entry. -/
def resolve_attacks (s : Ship) : List TargetedAttack → Ship × List TargetedAttack
  | [] => (s, [])
  | a :: rest =>
    if s.is_alive then
      if a.valid_target s.template.ship_size_class then
        let r := s.resolve_damage a.attack.sum_damage
        let a' : TargetedAttack :=
          { a with attack := { a.attack with
              parralel_attacks := r.2 / a.attack.damage_per_attack } }
        let rec' := r.1.resolve_attacks rest
        (rec'.1, a' :: rec'.2)
      else
        let rec' := s.resolve_attacks rest
        (rec'.1, a :: rec'.2)
    else
      (s, a :: rest)

end Ship

/-- `reduced_ship.rs`: the `ReducedShip` struct (a representative `Ship` plus
the number of ships in the group). -/
structure ReducedShip where
  average_ship : Ship
  number : Nat
deriving DecidableEq, Repr

/-- Result of the `while` loop inside `ReducedShip::resolve_damage`
(reduced_ship.rs:65-94): the damage pool, the live count, the count of
never-attacked ships, and the two `u64` accumulators. -/
structure RSLoopOut where
  damage : Nat
  number : Nat
  unattacked : Nat
  remaining_hull : Nat
  remaining_shield : Nat
deriving DecidableEq, Repr

namespace ReducedShip

/-- The `while` loop of `ReducedShip::resolve_damage` (reduced_ship.rs:65-94).
`avg` is `self.average_ship`, which the loop only reads (`simulate_damage`
does not mutate). The structural recursion is on `fuel`, a bound on the
number of passes: `to_iterate` shrinks by at least one per pass (its update
is `min (to_iterate - 1) _`), so whenever `to_iterate ≤ fuel` the `fuel = 0`
base case is reached only with `to_iterate = 0`, where the loop guard fails
and the base case returns the same exit state the guard would; the caller
passes `fuel = to_iterate`. The `u64` accumulators cannot wrap (sums of at
most `2^32` values below `2^32`), and `damage` never exceeds its initial
value (each pass removes `portion` and returns at most `portion` of it), so
plain `Nat` arithmetic is exact. -/
def resolveLoop (avg : Ship) :
    (fuel to_iterate damage number unattacked rh rs : Nat) → RSLoopOut
  | 0, _, damage, number, unattacked, rh, rs =>
    ⟨damage, number, unattacked, rh, rs⟩
  | fuel + 1, to_iterate, damage, number, unattacked, rh, rs =>
    if 0 < to_iterate ∧ damage ≠ 0 then
      let portion := damage / to_iterate
      let damage1 := damage - portion
      let sim := avg.simulate_damage portion
      if sim.1 = 0 then
        resolveLoop avg fuel (min (to_iterate - 1) (damage1 + sim.2.2))
          (damage1 + sim.2.2) (number - 1) (unattacked - 1) rh rs
      else
        resolveLoop avg fuel (min (to_iterate - 1) damage1)
          damage1 number (unattacked - 1) (rh + sim.1) (rs + sim.2.1)
    else
      ⟨damage, number, unattacked, rh, rs⟩

/-- `ReducedShip::is_alive` (reduced_ship.rs:39-41). -/
def is_alive (r : ReducedShip) : Bool :=
  r.number != 0

/-- `ReducedShip::regenerate_shields` (reduced_ship.rs:43-45). -/
def regenerate_shields (r : ReducedShip) : ReducedShip :=
  { r with average_ship := r.average_ship.regenerate_shields }

/-- `ReducedShip::resolve_damage` (reduced_ship.rs:52-110): runs the loop
with `to_iterate = min number damage`, then, if ships remain alive, adds the
hull/shields of the never-attacked ships and commits the two averages via the
checked setters whose errors are discarded (`.ok()` in the source keeps the
previous value on error). Returns the unused damage. -/
def resolve_damage (r : ReducedShip) (damage : Nat) : ReducedShip × Nat :=
  let out := resolveLoop r.average_ship (min r.number damage)
    (min r.number damage) damage r.number r.number 0 0
  let r1 : ReducedShip := ⟨r.average_ship, out.number⟩
  if r1.is_alive then
    let rh := out.remaining_hull + r.average_ship.hull_points * out.unattacked
    let rs := out.remaining_shield + r.average_ship.shield_points * out.unattacked
    let s1 := match r.average_ship.set_hull_points (rh / out.number) with
      | .ok s => s
      | .error _ => r.average_ship
    let s2 := match s1.set_shield_points (rs / out.number) with
      | .ok s => s
      | .error _ => s1
    (⟨s2, out.number⟩, out.damage)
  else
    (r1, out.damage)

end ReducedShip

/-- `attacks.rs`: the `ReducedAttacks` struct (a `Vec` of `TargetedAttack`s,
kept ordered and deduplicated by the constructors). -/
structure ReducedAttacks where
  attacks : List TargetedAttack
deriving DecidableEq, Repr

namespace ReducedAttacks

/-- Insert into a list sorted by `TargetedAttack.cmpLe`. Helper for
`sortAttacks`. -/
def insertSorted (a : TargetedAttack) : List TargetedAttack → List TargetedAttack
  | [] => [a]
  | b :: rest =>
    if a.cmpLe b then a :: b :: rest
    else b :: insertSorted a rest

/-- `Vec::sort_unstable` in `ReducedAttacks::new` (attacks.rs:155), which
sorts by the derived `Ord` of attacks.rs:63-76. That order is total and
antisymmetric (comparing `Equal` forces all three fields equal), so every
sorting algorithm produces the same list; insertion sort is used here. -/
def sortAttacks : List TargetedAttack → List TargetedAttack
  | [] => []
  | a :: rest => insertSorted a (sortAttacks rest)

/-- `Vec::dedup_by` in `ReducedAttacks::new` (attacks.rs:159-166). Rust's
`dedup_by(f)` calls `f(a, b)` with `a` the *later* element and `b` the
*earlier* retained one, and drops `a` when `f` returns `true`. The closure
`|prev, attack|` therefore receives the later element as `prev`: when the two
share `smallest_target` and `damage_per_attack`, `Attack::merge` adds the
earlier element's `parralel_attacks` into `prev` — the element which is then
removed — and the earlier element `x` is kept *unchanged*, so the merged sum
is discarded. Here `x` is the earlier (kept) element and `y` the later
candidate scanned against it. -/
def dedupFrom (x : TargetedAttack) : List TargetedAttack → List TargetedAttack
  | [] => [x]
  | y :: rest =>
    if x.same_target y ∧ x.attack.same_damage y.attack then
      dedupFrom x rest
    else
      x :: dedupFrom y rest

/-- `Vec::dedup_by` in `ReducedAttacks::new` (attacks.rs:159-166), starting
from the first element as the first retained one. -/
def dedupMerge : List TargetedAttack → List TargetedAttack
  | [] => []
  | x :: rest => dedupFrom x rest

/-- `ReducedAttacks::new` (attacks.rs:153-173): sort, then adjacent-merge
duplicates (`shrink_to_fit` has no observable effect on contents). -/
def new (attacks : List TargetedAttack) : ReducedAttacks :=
  ⟨dedupMerge (sortAttacks attacks)⟩

end ReducedAttacks

/-- `weapon_error.rs`: the `WeaponError` enum. -/
inductive WeaponError where
  | DamageError
  | AttacksError
  | TargetError
deriving DecidableEq, Repr

/-- `distinct_weapon.rs`: the `DistinctWeapon` struct. -/
structure DistinctWeapon where
  target_size : Nat
  damage_per_attack : Nat
  simultainious_attacks : Nat
deriving DecidableEq, Repr

/-- `DistinctWeapon::same_target` (distinct_weapon.rs:126-128). -/
def DistinctWeapon.same_target (left right : DistinctWeapon) : Bool :=
  left.target_size == right.target_size

/-- `reduced_weapon.rs`: the `ReducedWeapon` struct. -/
structure ReducedWeapon where
  weapons : List DistinctWeapon
deriving DecidableEq, Repr

namespace ReducedWeapon

/-- Inner `j` loop of `ReducedWeapon::new` (reduced_weapon.rs:38-52): for a
fixed `weapons[i]` (`wi`), scans `weapons[j]` for `j > i` in order and
returns the first violation. Note that the zero-damage and zero-attacks
checks are applied to `weapons[j]` only. -/
def checkInner (wi : DistinctWeapon) : List DistinctWeapon → Option WeaponError
  | [] => none
  | wj :: rest =>
    if wi.same_target wj then some .TargetError
    else if wj.damage_per_attack = 0 then some .DamageError
    else if wj.simultainious_attacks = 0 then some .AttacksError
    else checkInner wi rest

/-- Outer `i` loop of `ReducedWeapon::new` (reduced_weapon.rs:37-53). -/
def check : List DistinctWeapon → Option WeaponError
  | [] => none
  | w :: rest =>
    match checkInner w rest with
    | some e => some e
    | none => check rest

/-- `ReducedWeapon::new` (reduced_weapon.rs:36-62): returns the first
violation found by the nested loops, otherwise accepts the weapon list
(`shrink_to_fit` has no observable effect on contents). -/
def new (weapons : List DistinctWeapon) : Except WeaponError ReducedWeapon :=
  match check weapons with
  | some e => .error e
  | none => .ok ⟨weapons⟩

end ReducedWeapon

/-- `targeted_damage.rs`: the `TargetedDamage` struct. -/
structure TargetedDamage where
  target_size : Nat
  damage : Nat
deriving DecidableEq, Repr

/-- Modelled from the spec: `ShipTemplate::is_valid_for` is called by
`fleets.rs` (lines 198 and 216) but is absent from the `ShipTemplate` of
`src/game/combat/ships/ship_template.rs` (it belongs to an older template
revision outside `src/`). Per the spec, a size class is the "ordinal
category determining which attacks may target a ship or group" and a
`TargetedDamage` is "damage which is being targeted at a size of ship", so
damage is valid for exactly the templates of its target's size class. -/
def ShipTemplate.is_valid_for (t : ShipTemplate) (a : TargetedDamage) : Bool :=
  t.ship_size_class == a.target_size

/-- `fleets.rs`: the `RepeatedShip` struct (the fleets-module aggregate:
a representative `Ship` plus a counter). -/
structure RepeatedShip where
  ship_average : Ship
  counter : Nat
deriving DecidableEq, Repr

namespace RepeatedShip

/-- `RepeatedShip::same_template` (fleets.rs:387-389). -/
def same_template (a other : RepeatedShip) : Bool :=
  a.ship_average.template == other.ship_average.template

/-- Two's-complement wrap-around of an integer into the `i64` range
`[-2^63, 2^63)`: release-mode Rust semantics of an overflowing `i64`
operation (a debug build panics at the same inputs; on wrap-free inputs the
two builds and this model all agree). The constants are `2^64` and `2^63`,
written through `Int.ofNat` so that the definition evaluates by plain
kernel reduction. -/
def i64wrap (x : Int) : Int :=
  if Int.emod x (Int.ofNat 18446744073709551616) < Int.ofNat 9223372036854775808 then
    Int.emod x (Int.ofNat 18446744073709551616)
  else
    Int.emod x (Int.ofNat 18446744073709551616) - Int.ofNat 18446744073709551616

/-- One field of `RepeatedShip::merge` (fleets.rs:402-411; the source writes
this same expression out longhand for fuel, hull and shield):
`((va as i64 * ca as i64 / denom) + (vb as i64 * cb as i64 / denom)) as UInt`.
The `u32 → i64` widenings are exact, but each product is an `i64`
multiplication that wraps once `va·ca` reaches `2^63` (`i64wrap`); the
division is Rust `i64` division, truncating toward zero (`Int.tdiv`; in
Rust `denom = 0` panics — Lean totalises `Int.tdiv _ 0` as 0); the `i64`
addition
wraps again, and the final `as UInt` keeps the low 32 bits of the
two's-complement value (`Int.emod _ 2^32`). -/
def mergeField (denom : Int) (va ca vb cb : Nat) : Nat :=
  let ta := Int.tdiv (i64wrap (Int.ofNat va * Int.ofNat ca)) denom
  let tb := Int.tdiv (i64wrap (Int.ofNat vb * Int.ofNat cb)) denom
  (Int.emod (i64wrap (ta + tb)) (Int.ofNat 4294967296)).toNat

/-- `RepeatedShip::merge` (fleets.rs:396-414): every field becomes the sum
of two *separately* truncated `i64` divisions
`a·count_a / denom + b·count_b / denom` (see `mergeField`), with
`denom = (self.counter + other.counter) as i64` — a `u32` addition (which
wraps at `2^32`, hence the modulus) widened to `i64` — and
`self.counter += other.counter` the same wrapping `u32` addition. -/
def merge (a other : RepeatedShip) : RepeatedShip :=
  let denom : Int := Int.ofNat ((a.counter + other.counter) % U32MOD)
  { ship_average := { a.ship_average with
      fuel_units := mergeField denom a.ship_average.fuel_units a.counter
        other.ship_average.fuel_units other.counter
      hull_points := mergeField denom a.ship_average.hull_points a.counter
        other.ship_average.hull_points other.counter
      shield_points := mergeField denom a.ship_average.shield_points a.counter
        other.ship_average.shield_points other.counter }
    counter := (a.counter + other.counter) % U32MOD }

/-- `RepeatedShip::checked_merge` (fleets.rs:421-429): merge when the
templates agree, otherwise hand `other` back and leave the receiver
untouched. -/
def checked_merge (a other : RepeatedShip) : RepeatedShip × Option RepeatedShip :=
  if a.same_template other then
    (a.merge other, none)
  else
    (a, some other)

end RepeatedShip

/-- `fleets.rs`: the `ShipGroup` struct. -/
structure ShipGroup where
  ships : List RepeatedShip
deriving DecidableEq, Repr

namespace ShipGroup

/-- `ShipGroup::types_count` (fleets.rs:240-242). -/
def types_count (g : ShipGroup) : Nat :=
  g.ships.length

/-- Body of the `for_each` in `ShipGroup::resolve_attacks`
(fleets.rs:194-236) for one `TargetedDamage` entry. `valid_types` is the
fold of fleets.rs:197-203. The inner `loop` (fleets.rs:209-234) begins with
`if valid_types != 0 || attack.damage == 0 { break; }` and is entered only
under the guard `valid_types != 0` (fleets.rs:206), under which its first
test is already true: the loop breaks on its first pass, every time, leaving
both the group and the damage entry unmodified. -/
def resolve_one (g : ShipGroup) (attack : TargetedDamage) :
    ShipGroup × TargetedDamage :=
  let valid_types := g.ships.foldl
    (fun sum ship =>
      if ship.ship_average.template.is_valid_for attack then sum + 1 else sum) 0
  if valid_types ≠ 0 then
    (g, attack)
  else
    (g, attack)

/-- `ShipGroup::resolve_attacks` (fleets.rs:192-238): `attacks.for_each`
visits every remaining entry of the iterator, so the call consumes the whole
iterator; the returned list holds the visited entries as left in the
underlying storage. -/
def resolve_attacks (g : ShipGroup) : List TargetedDamage →
    ShipGroup × List TargetedDamage
  | [] => (g, [])
  | a :: rest =>
    let r1 := g.resolve_one a
    let r2 := r1.1.resolve_attacks rest
    (r2.1, r1.2 :: r2.2)

end ShipGroup

/-- `fleets.rs`: the `Fleet` struct. -/
structure Fleet where
  groups : List ShipGroup
deriving DecidableEq, Repr

namespace Fleet

/-- `Fleet::resolve_attacks` (fleets.rs:71-77) on
`attacks: &mut Iterator<Item = &mut TargetedDamage>`: visits the groups in
stored order, skips groups with `types_count() == 0`, and passes the *same*
iterator to each remaining group's `resolve_attacks`. The iterator is
modelled by the list of entries it has yet to yield; a group's
`resolve_attacks` consumes it entirely (its `for_each`), handing the entries
back (mutated in place in the underlying storage) and leaving the empty
remainder for the groups after it. The second component of the result is the
final contents of the underlying storage: the entries consumed so far
followed by the never-yielded remainder. -/
def resolve_attacks_aux : List ShipGroup → List TargetedDamage →
    List ShipGroup × List TargetedDamage
  | [], iter => ([], iter)
  | g :: gs, iter =>
    if g.types_count ≠ 0 then
      let r := g.resolve_attacks iter
      let rest := resolve_attacks_aux gs []
      (r.1 :: rest.1, r.2 ++ rest.2)
    else
      let rest := resolve_attacks_aux gs iter
      (g :: rest.1, rest.2)

/-- `Fleet::resolve_attacks` (fleets.rs:71-77). -/
def resolve_attacks (f : Fleet) (iter : List TargetedDamage) :
    Fleet × List TargetedDamage :=
  let r := resolve_attacks_aux f.groups iter
  (⟨r.1⟩, r.2)

end Fleet

/-- `ship_template.rs`: the `TemplateBuf` struct (the bounded template
cache). Names are the `String` keys of `NamedTemplate`. -/
structure TemplateBuf where
  templates : List (String × ShipTemplate)
  max_loaded : Nat
deriving DecidableEq, Repr

namespace TemplateBuf

/-- `TemplateBuf::loaded` (ship_template.rs:232-234). -/
def loaded (buf : TemplateBuf) : Nat :=
  buf.templates.length

/-- `TemplateBuf::get` (ship_template.rs:242-269). The file-system load
(`load_template`, which opens `./res/ships/<name>.ship` and parses it) is
modelled by the oracle `load`. On a cache hit the cache is unchanged; on a
miss with a successful load, when the cache is full (`max_loaded ==
loaded()`) the new entry *overwrites index 0* (`self.templates[0] = ...`),
otherwise it is pushed at the back. (With `max_loaded = 0` and an empty
cache Rust would panic on the index; `List.set` leaves the list unchanged.)
On a failed load the cache is unchanged and `none` is returned. -/
def get (buf : TemplateBuf) (load : String → Option ShipTemplate)
    (name : String) : TemplateBuf × Option ShipTemplate :=
  match buf.templates.find? (fun t => t.1 == name) with
  | some t => (buf, some t.2)
  | none =>
    match load name with
    | some template =>
      if buf.max_loaded = buf.loaded then
        ({ buf with templates := buf.templates.set 0 (name, template) },
          some template)
      else
        ({ buf with templates := buf.templates ++ [(name, template)] },
          some template)
    | none => (buf, none)

end TemplateBuf

/-! ## Shared helper definitions for the theorems -/

/-- The capacity invariant of a `Ship` (spec §8): fuel, hull and shields
within the template's capacities. -/
def ShipInv (s : Ship) : Prop :=
  s.fuel_units ≤ s.template.fuel_capacity ∧
    s.hull_points ≤ s.template.max_hull ∧
    s.shield_points ≤ s.template.shield_capacity

instance (s : Ship) : Decidable (ShipInv s) := by
  unfold ShipInv; infer_instance

/-- A small valid template used by several concrete instantiations:
size 1, fuel capacity 1 (use 0), max hull 1, no shields. -/
def tinyTemplate : ShipTemplate := ⟨1, 1, 0, 1, 0, 0, 0, 1, 0⟩

/-- The template of the spec §8 scenario: size 1, `max_hull = 100`,
`shield_capacity = 100`, `shield_recovery = 1` (fuel capacity 1, use 0). -/
def scenarioTemplate : ShipTemplate := ⟨1, 1, 0, 100, 100, 1, 0, 1, 0⟩

/-! ## C1 — damage conservation for a single ship -/

/-- C1 (counterexample): a ship with `hull = 1`, `shield = 0` hit with
`resolve_damage 1` (so `d = 1 ≤ h + s = 1`) ends with
`hull + shield + leftover = 0`, not `h + s = 1` as the claim states. -/
theorem C1_counterexample :
    (1 : Nat) ≤ 1 + 0 ∧
      ((Ship.mk tinyTemplate 0 1 0).resolve_damage 1).1.hull_points
        + ((Ship.mk tinyTemplate 0 1 0).resolve_damage 1).1.shield_points
        + ((Ship.mk tinyTemplate 0 1 0).resolve_damage 1).2 ≠ 1 + 0 := by
  decide

/-- C1 (amended): for every ship with `hull = h`, `shield = s`,
`resolve_damage d` leaves `hull + shield = (h + s) - d` (so
`hull + shield + leftover = (h + s) - d`, the leftover being 0) whenever
`d ≤ h + s`, and returns exactly `d - (h + s)` with final
`hull = shield = 0` whenever `d > h + s`; both cases are captured by the two
truncated-subtraction identities below (for `d ≤ h + s` the second gives
leftover 0, and for `d > h + s` the first gives `hull + shield = 0`, hence
`hull = shield = 0`). -/
theorem C1_damage_conservation (t : ShipTemplate) (f h s d : Nat) :
    ((Ship.mk t f h s).resolve_damage d).1.hull_points
        + ((Ship.mk t f h s).resolve_damage d).1.shield_points
      = (h + s) - min d (h + s)
    ∧ ((Ship.mk t f h s).resolve_damage d).2 = d - (h + s) := by
  simp only [Ship.resolve_damage, Ship.simulate_damage]
  split_ifs with h1 h2 <;> simp_all <;> omega

/-! ## C2 — the spec §8 scenario -/

/-- C2 (counterexample): the spec's scenario — a group of 10 over
`scenarioTemplate`, representative at `hull = 100`, `shield = 0`, hit with
`resolve_damage 550` — does not end with `count = 5`: the loop splits the
550 damage as `550 / 10 = 55` per ship, every ship survives with
`100 - 55 = 45` hull, and no ship dies. -/
theorem C2_counterexample :
    ((ReducedShip.mk (Ship.mk scenarioTemplate 0 100 0) 10).resolve_damage 550).1.number
      ≠ 5 := by
  decide

/-- C2 (amended): in the spec's scenario, `resolve_damage 550` returns the
group with `count = 10`, representative `hull = 45`, `shield = 0`, and
leftover `0`: each of the 10 ships is dealt an equal `55 < 100` portion, so
none dies and the new average hull is `45`. -/
theorem C2_scenario :
    ((ReducedShip.mk (Ship.mk scenarioTemplate 0 100 0) 10).resolve_damage 550)
      = (ReducedShip.mk (Ship.mk scenarioTemplate 0 45 0) 10, 0) := by
  decide

/-! ## C3 — nonzero leftover means the group was wiped out -/

/-- Characterisation of `Ship::simulate_damage` for a representative with
nonzero hull: the simulated ship dies exactly when the portion reaches
`shield + hull`, and a dead simulation's leftover is the excess over
`shield + hull`. -/
theorem simulate_damage_dead (avg : Ship) (p : Nat) (hH : 1 ≤ avg.hull_points) :
    ((avg.simulate_damage p).1 = 0 ↔ avg.shield_points + avg.hull_points ≤ p)
    ∧ (avg.shield_points + avg.hull_points ≤ p →
        (avg.simulate_damage p).2.2 = p - (avg.shield_points + avg.hull_points)) := by
  unfold Ship.simulate_damage
  dsimp only
  split_ifs with h1 h2 <;> dsimp only <;> omega

/-- Invariant argument for the loop of `ReducedShip::resolve_damage` over a
representative with nonzero hull: under `to_iterate ≤ fuel`,
`to_iterate ≤ damage`, `to_iterate ≤ number`, and the surplus invariant
"`number > to_iterate` forces `damage ≤ to_iterate · (shield + hull)`", a
nonzero damage pool at loop exit means every ship died. The surplus
invariant holds initially (`to_iterate = min number damage`) and is
preserved: a surviving ship consumes a portion below `shield + hull` from a
pool that integer division keeps small enough, and a dying ship consumes
exactly `shield + hull`. -/
theorem resolveLoop_wipeout (avg : Ship) (hH : 1 ≤ avg.hull_points) :
    ∀ (fuel k d n u rh rs : Nat), k ≤ fuel → k ≤ d → k ≤ n →
      (k < n → d ≤ k * (avg.shield_points + avg.hull_points)) →
      (ReducedShip.resolveLoop avg fuel k d n u rh rs).damage ≠ 0 →
      (ReducedShip.resolveLoop avg fuel k d n u rh rs).number = 0 := by
  intro fuel
  induction fuel with
  | zero =>
    intro k d n u rh rs hkf hkd hkn hinv hnz
    simp only [ReducedShip.resolveLoop] at hnz ⊢
    have hk : k = 0 := Nat.le_zero.mp hkf
    rcases Nat.eq_zero_or_pos n with hn | hn
    · exact hn
    · exfalso
      have := hinv (by omega)
      simp only [hk, Nat.zero_mul, Nat.le_zero] at this
      exact hnz this
  | succ fuel ih =>
    intro k d n u rh rs hkf hkd hkn hinv hnz
    by_cases hg : 0 < k ∧ d ≠ 0
    · -- one loop pass
      have hpd : d / k ≤ d := Nat.div_le_self d k
      have hsim := simulate_damage_dead avg (d / k) hH
      simp only [ReducedShip.resolveLoop, if_pos hg] at hnz ⊢
      by_cases hdead : (avg.simulate_damage (d / k)).1 = 0
      · -- the simulated ship dies: the pass consumes exactly shield + hull
        have hle : avg.shield_points + avg.hull_points ≤ d / k := (hsim.1).mp hdead
        have hleft : (avg.simulate_damage (d / k)).2.2
            = d / k - (avg.shield_points + avg.hull_points) := hsim.2 hle
        simp only [if_pos hdead] at hnz ⊢
        refine ih _ _ _ _ _ _ ?_ (Nat.min_le_right _ _) ?_ ?_ hnz
        · exact Nat.le_trans (Nat.min_le_left _ _) (by omega)
        · exact Nat.le_trans (Nat.min_le_left _ _) (by omega)
        · rcases Nat.le_total (k - 1)
            (d - d / k + (avg.simulate_damage (d / k)).2.2) with hmin | hmin
          · rw [Nat.min_eq_left hmin]
            intro hlt
            have hdk : d ≤ k * (avg.shield_points + avg.hull_points) :=
              hinv (by omega)
            have hX : d - d / k + (avg.simulate_damage (d / k)).2.2
                = d - (avg.shield_points + avg.hull_points) := by omega
            rw [hX, Nat.sub_one_mul]
            exact Nat.sub_le_sub_right hdk _
          · rw [Nat.min_eq_right hmin]
            intro _
            exact Nat.le_mul_of_pos_right _ (by omega)
      · -- the simulated ship survives: the portion is below shield + hull
        have hlt : d / k + 1 ≤ avg.shield_points + avg.hull_points := by
          have := (hsim.1).not.mp hdead
          omega
        simp only [if_neg hdead] at hnz ⊢
        refine ih _ _ _ _ _ _ ?_ (Nat.min_le_right _ _) ?_ ?_ hnz
        · exact Nat.le_trans (Nat.min_le_left _ _) (by omega)
        · exact Nat.le_trans (Nat.min_le_left _ _) (by omega)
        · rcases Nat.le_total (k - 1) (d - d / k) with hmin | hmin
          · rw [Nat.min_eq_left hmin]
            intro _
            have h1 : d - d / k ≤ (k - 1) * (d / k + 1) := by
              have hdm := Nat.div_add_mod d k
              have hmod : d % k < k := Nat.mod_lt d (by omega)
              have hkp : k * (d / k) = (k - 1) * (d / k) + d / k := by
                have hk1 : (k - 1) + 1 = k := Nat.succ_pred_eq_of_pos hg.1
                calc k * (d / k) = ((k - 1) + 1) * (d / k) := by rw [hk1]
                _ = (k - 1) * (d / k) + d / k := Nat.succ_mul _ _
              have hexp : (k - 1) * (d / k + 1) = (k - 1) * (d / k) + (k - 1) :=
                Nat.mul_succ (k - 1) (d / k)
              omega
            exact Nat.le_trans h1 (Nat.mul_le_mul_left (k - 1) hlt)
          · rw [Nat.min_eq_right hmin]
            intro _
            exact Nat.le_mul_of_pos_right _ (by omega)
    · -- guard fails: the loop exits with the current state
      simp only [ReducedShip.resolveLoop, if_neg hg] at hnz ⊢
      rcases Nat.eq_zero_or_pos n with hn | hn
      · exact hn
      · exfalso
        have hk : k = 0 := by
          rcases Nat.eq_zero_or_pos k with h | h
          · exact h
          · exact absurd ⟨h, hnz⟩ hg
        have := hinv (by omega)
        simp only [hk, Nat.zero_mul, Nat.le_zero] at this
        exact hnz this

/-- The returned leftover and final count of `ReducedShip::resolve_damage`
are the `damage` and `number` of its loop's exit state, in both the
some-ships-alive and the wiped-out branch. -/
theorem resolve_damage_loop_proj (g : ReducedShip) (d : Nat) :
    (g.resolve_damage d).2
        = (ReducedShip.resolveLoop g.average_ship (min g.number d)
            (min g.number d) d g.number g.number 0 0).damage
    ∧ (g.resolve_damage d).1.number
        = (ReducedShip.resolveLoop g.average_ship (min g.number d)
            (min g.number d) d g.number g.number 0 0).number := by
  unfold ReducedShip.resolve_damage
  dsimp only
  split_ifs <;> exact ⟨rfl, rfl⟩

/-- C3 (counterexample): the claim fails for a group whose representative
has zero hull: a group of 5 ships over `tinyTemplate` with representative
`hull = 0`, `shield = 0` resolves 2 damage to a nonzero leftover of 2 while
3 ships are still counted alive — every simulated portion "kills" a ship at
zero cost, and the loop runs out of scheduled passes with both damage and
ships remaining. -/
theorem C3_counterexample :
    ((ReducedShip.mk (Ship.mk tinyTemplate 0 0 0) 5).resolve_damage 2).2 ≠ 0
    ∧ ((ReducedShip.mk (Ship.mk tinyTemplate 0 0 0) 5).resolve_damage 2).1.number ≠ 0 := by
  decide

/-- C3 (amended): for every aggregate group whose representative has nonzero
hull and every damage amount `d`, the value returned by the group's
`resolve_damage d` is nonzero only if the group was wiped out: a nonzero
return implies `count = 0` after the call. -/
theorem C3_nonzero_return_wipeout (g : ReducedShip) (d : Nat)
    (hH : 1 ≤ g.average_ship.hull_points)
    (hnz : (g.resolve_damage d).2 ≠ 0) :
    (g.resolve_damage d).1.number = 0 := by
  have hproj := resolve_damage_loop_proj g d
  rw [hproj.1] at hnz
  rw [hproj.2]
  refine resolveLoop_wipeout g.average_ship hH _ _ _ _ _ _ _
    (Nat.le_refl _) (Nat.min_le_right _ _) (Nat.min_le_left _ _) ?_ hnz
  intro hlt
  have : min g.number d = d := by omega
  rw [this]
  exact Nat.le_mul_of_pos_right _ (by omega)

/-- C3 (witness): the amended theorem applied to a one-ship group with
`hull = 1`: resolving 5 damage returns leftover 4 and wipes the group out. -/
theorem C3_nonzero_return_wipeout_witness :
    1 ≤ (ReducedShip.mk (Ship.mk tinyTemplate 0 1 0) 1).average_ship.hull_points
    ∧ ((ReducedShip.mk (Ship.mk tinyTemplate 0 1 0) 1).resolve_damage 5).2 ≠ 0
    ∧ ((ReducedShip.mk (Ship.mk tinyTemplate 0 1 0) 1).resolve_damage 5).1.number = 0 :=
  ⟨by decide, by decide,
    C3_nonzero_return_wipeout (ReducedShip.mk (Ship.mk tinyTemplate 0 1 0) 1) 5
      (by decide) (by decide)⟩

/-! ## C4 — the capacity invariant -/

/-- `Ship::new` only accepts states within the template's capacities. -/
theorem shipInv_new (t : ShipTemplate) (f h s : Nat) (s0 : Ship)
    (hok : Ship.new t f h s = .ok s0) : ShipInv s0 := by
  unfold Ship.new at hok
  split_ifs at hok with h1 h2 h3
  injection hok with hs0
  subst hs0
  unfold ShipInv
  dsimp only
  omega

/-- `Ship::set_fuel_units` preserves the invariant when it succeeds. -/
theorem shipInv_set_fuel_units (s : Ship) (v : Nat) (s' : Ship) (hs : ShipInv s)
    (hok : s.set_fuel_units v = .ok s') : ShipInv s' := by
  obtain ⟨hf, hh, hp⟩ := hs
  unfold Ship.set_fuel_units at hok
  split_ifs at hok with h1
  injection hok with hs'
  subst hs'
  unfold ShipInv
  dsimp only
  omega

/-- `Ship::set_hull_points` preserves the invariant when it succeeds. -/
theorem shipInv_set_hull_points (s : Ship) (v : Nat) (s' : Ship) (hs : ShipInv s)
    (hok : s.set_hull_points v = .ok s') : ShipInv s' := by
  obtain ⟨hf, hh, hp⟩ := hs
  unfold Ship.set_hull_points at hok
  split_ifs at hok with h1
  injection hok with hs'
  subst hs'
  unfold ShipInv
  dsimp only
  omega

/-- `Ship::set_shield_points` preserves the invariant when it succeeds. -/
theorem shipInv_set_shield_points (s : Ship) (v : Nat) (s' : Ship) (hs : ShipInv s)
    (hok : s.set_shield_points v = .ok s') : ShipInv s' := by
  obtain ⟨hf, hh, hp⟩ := hs
  unfold Ship.set_shield_points at hok
  split_ifs at hok with h1
  injection hok with hs'
  subst hs'
  unfold ShipInv
  dsimp only
  omega

/-- `Ship::set_template` re-validates all three fields against the new
template before committing it. -/
theorem shipInv_set_template (s : Ship) (t : ShipTemplate) (s' : Ship)
    (hok : s.set_template t = .ok s') : ShipInv s' := by
  unfold Ship.set_template at hok
  split_ifs at hok with h1 h2 h3
  injection hok with hs'
  subst hs'
  unfold ShipInv
  dsimp only
  omega

/-- `Ship::regenerate_shields` clamps at the shield capacity. -/
theorem shipInv_regenerate_shields (s : Ship) (hs : ShipInv s) :
    ShipInv s.regenerate_shields := by
  obtain ⟨hf, hh, hp⟩ := hs
  unfold Ship.regenerate_shields
  dsimp only
  split_ifs with h1 <;> unfold ShipInv <;> dsimp only <;> omega

/-- `Ship::resolve_damage` only lowers hull and shields. -/
theorem shipInv_resolve_damage (s : Ship) (d : Nat) (hs : ShipInv s) :
    ShipInv (s.resolve_damage d).1 := by
  obtain ⟨hf, hh, hp⟩ := hs
  unfold Ship.resolve_damage Ship.simulate_damage
  dsimp only
  split_ifs with h1 h2 <;> unfold ShipInv <;> dsimp only <;> omega

/-- `Ship::resolve_attacks` touches the ship only through
`Ship::resolve_damage`. -/
theorem shipInv_resolve_attacks (s : Ship) (l : List TargetedAttack)
    (hs : ShipInv s) : ShipInv (s.resolve_attacks l).1 := by
  induction l generalizing s with
  | nil => exact hs
  | cons a rest ih =>
    unfold Ship.resolve_attacks
    dsimp only
    split_ifs with h1 h2
    · exact ih _ (shipInv_resolve_damage s a.attack.sum_damage hs)
    · exact ih _ hs
    · exact hs

/-- The checked-setter-with-discarded-error pattern of
`ReducedShip::resolve_damage` (`.ok()` in the source) preserves the
invariant for the hull setter. -/
theorem shipInv_set_hull_points_or_keep (s : Ship) (v : Nat) (hs : ShipInv s) :
    ShipInv (match s.set_hull_points v with | .ok s' => s' | .error _ => s) := by
  cases hok : s.set_hull_points v with
  | ok s' => exact shipInv_set_hull_points s v s' hs hok
  | error _ => exact hs

/-- The checked-setter-with-discarded-error pattern of
`ReducedShip::resolve_damage` preserves the invariant for the shield
setter. -/
theorem shipInv_set_shield_points_or_keep (s : Ship) (v : Nat) (hs : ShipInv s) :
    ShipInv (match s.set_shield_points v with | .ok s' => s' | .error _ => s) := by
  cases hok : s.set_shield_points v with
  | ok s' => exact shipInv_set_shield_points s v s' hs hok
  | error _ => exact hs

/-- `ReducedShip::resolve_damage` mutates its representative only through
the two checked setters, whose errors it discards. -/
theorem shipInv_group_resolve_damage (g : ReducedShip) (d : Nat)
    (hs : ShipInv g.average_ship) :
    ShipInv ((g.resolve_damage d).1).average_ship := by
  unfold ReducedShip.resolve_damage
  dsimp only
  split_ifs with h1
  · exact shipInv_set_shield_points_or_keep _ _
      (shipInv_set_hull_points_or_keep _ _ hs)
  · exact hs

/-- C4: the capacity invariant `fuel_units ≤ fuel_capacity ∧ hull_points ≤
max_hull ∧ shield_points ≤ shield_capacity` holds for every ship accepted by
`Ship::new` and is preserved by every public operation: the three setters,
`set_template`, `regenerate_shields`, `resolve_damage`, `resolve_attacks`,
and the group damage resolution `ReducedShip::resolve_damage` acting on its
representative (setters that error leave the ship unchanged, so it keeps
its prior valid state). -/
theorem C4_capacity_invariant :
    (∀ (t : ShipTemplate) (f h s : Nat) (s0 : Ship),
        Ship.new t f h s = .ok s0 → ShipInv s0)
    ∧ (∀ (sh : Ship) (v : Nat) (s' : Ship),
        ShipInv sh → sh.set_fuel_units v = .ok s' → ShipInv s')
    ∧ (∀ (sh : Ship) (v : Nat) (s' : Ship),
        ShipInv sh → sh.set_hull_points v = .ok s' → ShipInv s')
    ∧ (∀ (sh : Ship) (v : Nat) (s' : Ship),
        ShipInv sh → sh.set_shield_points v = .ok s' → ShipInv s')
    ∧ (∀ (sh : Ship) (t : ShipTemplate) (s' : Ship),
        sh.set_template t = .ok s' → ShipInv s')
    ∧ (∀ sh : Ship, ShipInv sh → ShipInv sh.regenerate_shields)
    ∧ (∀ (sh : Ship) (d : Nat), ShipInv sh → ShipInv (sh.resolve_damage d).1)
    ∧ (∀ (sh : Ship) (l : List TargetedAttack),
        ShipInv sh → ShipInv (sh.resolve_attacks l).1)
    ∧ (∀ (g : ReducedShip) (d : Nat),
        ShipInv g.average_ship → ShipInv ((g.resolve_damage d).1).average_ship) :=
  ⟨shipInv_new, shipInv_set_fuel_units, shipInv_set_hull_points,
    shipInv_set_shield_points, fun sh t s' => shipInv_set_template sh t s',
    shipInv_regenerate_shields, shipInv_resolve_damage, shipInv_resolve_attacks,
    shipInv_group_resolve_damage⟩

/-- C4 (witness): every conjunct of the invariant theorem applied at
concrete inputs over `scenarioTemplate`, with every hypothesis discharged by
evaluation. -/
theorem C4_capacity_invariant_witness :
    ShipInv (Ship.mk scenarioTemplate 1 100 100)
    ∧ ShipInv (Ship.mk scenarioTemplate 0 100 100)
    ∧ ShipInv (Ship.mk scenarioTemplate 1 40 100)
    ∧ ShipInv (Ship.mk scenarioTemplate 1 100 60)
    ∧ ShipInv (Ship.mk tinyTemplate 1 1 0)
    ∧ ShipInv (Ship.mk scenarioTemplate 1 100 99).regenerate_shields
    ∧ ShipInv ((Ship.mk scenarioTemplate 1 100 100).resolve_damage 150).1
    ∧ ShipInv ((Ship.mk scenarioTemplate 1 100 100).resolve_attacks [⟨⟨3, 40⟩, 1⟩]).1
    ∧ ShipInv (((ReducedShip.mk (Ship.mk scenarioTemplate 0 100 0) 10).resolve_damage 550).1).average_ship :=
  ⟨C4_capacity_invariant.1 scenarioTemplate 1 100 100 _ rfl,
    C4_capacity_invariant.2.1 (Ship.mk scenarioTemplate 1 100 100) 0 _ (by decide) rfl,
    C4_capacity_invariant.2.2.1 (Ship.mk scenarioTemplate 1 100 100) 40 _ (by decide) rfl,
    C4_capacity_invariant.2.2.2.1 (Ship.mk scenarioTemplate 1 100 100) 60 _ (by decide) rfl,
    C4_capacity_invariant.2.2.2.2.1 (Ship.mk scenarioTemplate 1 1 0) tinyTemplate _ rfl,
    C4_capacity_invariant.2.2.2.2.2.1 (Ship.mk scenarioTemplate 1 100 99) (by decide),
    C4_capacity_invariant.2.2.2.2.2.2.1 (Ship.mk scenarioTemplate 1 100 100) 150 (by decide),
    C4_capacity_invariant.2.2.2.2.2.2.2.1 (Ship.mk scenarioTemplate 1 100 100) [⟨⟨3, 40⟩, 1⟩] (by decide),
    C4_capacity_invariant.2.2.2.2.2.2.2.2 (ReducedShip.mk (Ship.mk scenarioTemplate 0 100 0) 10) 550 (by decide)⟩

/-! ## C5 — attack-pool construction -/

/-- C5 (code bug): building a pool from a single bucket `(target 1, damage 1,
2 parallel attacks)` and from the same bucket split into two entries of 1
parallel attack each yields different pools. Rust's `dedup_by` hands the
closure the *later* element first and removes that first argument, so
`ReducedAttacks::new` stores the merged `parralel_attacks` sum in the very
element it removes (the source comment says it removes `attack`, the other
one) and keeps the earlier entry unchanged: the split list collapses to a
single parallel attack instead of two. -/
theorem C5_dedup_loses_counts :
    ReducedAttacks.new [⟨⟨1, 1⟩, 1⟩, ⟨⟨1, 1⟩, 1⟩] ≠ ReducedAttacks.new [⟨⟨2, 1⟩, 1⟩]
    ∧ ReducedAttacks.new [⟨⟨1, 1⟩, 1⟩, ⟨⟨1, 1⟩, 1⟩] = ⟨[⟨⟨1, 1⟩, 1⟩]⟩
    ∧ ReducedAttacks.new [⟨⟨2, 1⟩, 1⟩] = ⟨[⟨⟨2, 1⟩, 1⟩]⟩ := by
  decide

/-! ## C6 — merging aggregate groups -/

/-- C6 (counterexample): merging two groups over the same template, each of
count 1 with hull 1, yields hull `1·1/2 + 1·1/2 = 0`, not the claim's
count-weighted average `(1·1 + 1·1) / (1 + 1) = 1`: the code divides each
term separately before adding. -/
theorem C6_counterexample :
    ((RepeatedShip.mk (Ship.mk tinyTemplate 0 1 0) 1).merge
        (RepeatedShip.mk (Ship.mk tinyTemplate 0 1 0) 1)).ship_average.hull_points
      ≠ (1 * 1 + 1 * 1) / (1 + 1) := by
  decide

/-- Floor division of a sum from below: the separately truncated terms never
exceed the jointly truncated sum. -/
theorem div_add_div_le (x y n : Nat) : x / n + y / n ≤ (x + y) / n := by
  rcases Nat.eq_zero_or_pos n with hn | hn
  · subst hn; simp
  · rw [Nat.le_div_iff_mul_le hn, Nat.add_mul]
    exact Nat.add_le_add (Nat.div_mul_le_self x n) (Nat.div_mul_le_self y n)

/-- Floor division of a sum from above: the jointly truncated sum exceeds
the separately truncated terms by at most one. -/
theorem div_add_div_ge (x y n : Nat) (hn : 0 < n) :
    (x + y) / n ≤ x / n + y / n + 1 := by
  rw [Nat.div_le_iff_le_mul_add_pred hn, Nat.mul_add, Nat.mul_add, Nat.mul_one]
  have hx := Nat.div_add_mod x n
  have hy := Nat.div_add_mod y n
  have hmx : x % n < n := Nat.mod_lt x hn
  have hmy : y % n < n := Nat.mod_lt y hn
  omega

/-- `i64wrap` is the identity on naturals below `2^63` (the wrap-free
range). -/
theorem i64wrap_eq_of_lt (x : Nat) (hx : x < 9223372036854775808) :
    RepeatedShip.i64wrap (Int.ofNat x) = Int.ofNat x := by
  have h0 : (0 : Int) ≤ Int.ofNat x := Int.ofNat_nonneg x
  have hlt : Int.ofNat x < Int.ofNat 18446744073709551616 :=
    Int.ofNat_lt.mpr (by omega)
  have hm : Int.emod (Int.ofNat x) (Int.ofNat 18446744073709551616)
      = Int.ofNat x := Int.emod_eq_of_lt h0 hlt
  have hcond : Int.ofNat x < Int.ofNat 9223372036854775808 :=
    Int.ofNat_lt.mpr hx
  unfold RepeatedShip.i64wrap
  rw [hm, if_pos hcond]

/-- On wrap-free inputs — both field values in `u32` range, both
`value·count` products below `2^63`, and a positive count sum below
`2^32` — `mergeField` computes exactly the sum of the two separately
truncated `Nat` divisions. -/
theorem mergeField_exact (va ca vb cb : Nat)
    (hva : va < U32MOD) (hvb : vb < U32MOD)
    (hpa : va * ca < 9223372036854775808)
    (hpb : vb * cb < 9223372036854775808)
    (hd0 : 0 < ca + cb) (hdu : ca + cb < U32MOD) :
    RepeatedShip.mergeField (Int.ofNat ((ca + cb) % U32MOD)) va ca vb cb
      = va * ca / (ca + cb) + vb * cb / (ca + cb) := by
  have hmod : (ca + cb) % U32MOD = ca + cb := Nat.mod_eq_of_lt hdu
  have hsum : va * ca / (ca + cb) + vb * cb / (ca + cb) < U32MOD := by
    have h1 : va * ca / (ca + cb) + vb * cb / (ca + cb)
        ≤ (va * ca + vb * cb) / (ca + cb) := div_add_div_le _ _ _
    have h2 : va * ca + vb * cb ≤ (ca + cb) * max va vb := by
      calc va * ca + vb * cb
          ≤ max va vb * ca + max va vb * cb :=
            Nat.add_le_add (Nat.mul_le_mul_right ca (le_max_left va vb))
              (Nat.mul_le_mul_right cb (le_max_right va vb))
        _ = (ca + cb) * max va vb := by ring
    have h3 : (va * ca + vb * cb) / (ca + cb) ≤ max va vb :=
      Nat.div_le_of_le_mul h2
    exact lt_of_le_of_lt (le_trans h1 h3) (max_lt hva hvb)
  unfold U32MOD at hsum
  have hsum63 : va * ca / (ca + cb) + vb * cb / (ca + cb)
      < 9223372036854775808 := by omega
  have hemod : Int.emod
      (Int.ofNat (va * ca / (ca + cb) + vb * cb / (ca + cb)))
      (Int.ofNat 4294967296)
      = Int.ofNat (va * ca / (ca + cb) + vb * cb / (ca + cb)) :=
    Int.emod_eq_of_lt (Int.ofNat_nonneg _) (Int.ofNat_lt.mpr hsum)
  simp only [RepeatedShip.mergeField, hmod]
  rw [show Int.ofNat va * Int.ofNat ca = Int.ofNat (va * ca) from rfl,
    show Int.ofNat vb * Int.ofNat cb = Int.ofNat (vb * cb) from rfl,
    i64wrap_eq_of_lt _ hpa, i64wrap_eq_of_lt _ hpb,
    show Int.tdiv (Int.ofNat (va * ca)) (Int.ofNat (ca + cb))
      = Int.ofNat (va * ca / (ca + cb)) from rfl,
    show Int.tdiv (Int.ofNat (vb * cb)) (Int.ofNat (ca + cb))
      = Int.ofNat (vb * cb / (ca + cb)) from rfl,
    show Int.ofNat (va * ca / (ca + cb)) + Int.ofNat (vb * cb / (ca + cb))
      = Int.ofNat (va * ca / (ca + cb) + vb * cb / (ca + cb)) from rfl,
    i64wrap_eq_of_lt _ hsum63, hemod]
  rfl

/-- The three averaged fields and the counter of a merged group, read off
`RepeatedShip::merge`. -/
theorem merge_proj (a b : RepeatedShip) :
    (a.merge b).counter = (a.counter + b.counter) % U32MOD
    ∧ (a.merge b).ship_average.fuel_units
        = RepeatedShip.mergeField (Int.ofNat ((a.counter + b.counter) % U32MOD))
            a.ship_average.fuel_units a.counter b.ship_average.fuel_units b.counter
    ∧ (a.merge b).ship_average.hull_points
        = RepeatedShip.mergeField (Int.ofNat ((a.counter + b.counter) % U32MOD))
            a.ship_average.hull_points a.counter b.ship_average.hull_points b.counter
    ∧ (a.merge b).ship_average.shield_points
        = RepeatedShip.mergeField (Int.ofNat ((a.counter + b.counter) % U32MOD))
            a.ship_average.shield_points a.counter b.ship_average.shield_points b.counter := by
  refine ⟨?_, ?_, ?_, ?_⟩ <;> simp only [RepeatedShip.merge]

/-- C6 (amended): for two aggregate groups within the `i64`-exact range —
the two field values involved in `u32` range with the two `value·count`
products below `2^63`, and `0 < count_a + count_b < 2^32` (so no `i64`
product wraps, the `u32` count addition does not wrap, and the division
does not panic) — merging sets each of fuel, hull, and shield to
`a_value·count_a/(count_a+count_b) + b_value·count_b/(count_a+count_b)`:
two *separately* truncated integer divisions, which never exceed the
jointly divided count-weighted average of the claim and fall below it by at
most 1; the count becomes `count_a + count_b`; when the templates differ,
the checked merge returns the un-merged input unchanged and leaves the
receiver unchanged. -/
theorem C6_weighted_merge :
    (∀ a b : RepeatedShip, a.counter + b.counter < U32MOD →
        (a.merge b).counter = a.counter + b.counter)
    ∧ (∀ a b : RepeatedShip,
        0 < a.counter + b.counter → a.counter + b.counter < U32MOD →
        a.ship_average.fuel_units < U32MOD → b.ship_average.fuel_units < U32MOD →
        a.ship_average.fuel_units * a.counter < 9223372036854775808 →
        b.ship_average.fuel_units * b.counter < 9223372036854775808 →
        (a.merge b).ship_average.fuel_units
          = a.ship_average.fuel_units * a.counter / (a.counter + b.counter)
            + b.ship_average.fuel_units * b.counter / (a.counter + b.counter)
        ∧ (a.merge b).ship_average.fuel_units
            ≤ (a.ship_average.fuel_units * a.counter
                + b.ship_average.fuel_units * b.counter) / (a.counter + b.counter)
        ∧ (a.ship_average.fuel_units * a.counter
            + b.ship_average.fuel_units * b.counter) / (a.counter + b.counter)
          ≤ (a.merge b).ship_average.fuel_units + 1)
    ∧ (∀ a b : RepeatedShip,
        0 < a.counter + b.counter → a.counter + b.counter < U32MOD →
        a.ship_average.hull_points < U32MOD → b.ship_average.hull_points < U32MOD →
        a.ship_average.hull_points * a.counter < 9223372036854775808 →
        b.ship_average.hull_points * b.counter < 9223372036854775808 →
        (a.merge b).ship_average.hull_points
          = a.ship_average.hull_points * a.counter / (a.counter + b.counter)
            + b.ship_average.hull_points * b.counter / (a.counter + b.counter)
        ∧ (a.merge b).ship_average.hull_points
            ≤ (a.ship_average.hull_points * a.counter
                + b.ship_average.hull_points * b.counter) / (a.counter + b.counter)
        ∧ (a.ship_average.hull_points * a.counter
            + b.ship_average.hull_points * b.counter) / (a.counter + b.counter)
          ≤ (a.merge b).ship_average.hull_points + 1)
    ∧ (∀ a b : RepeatedShip,
        0 < a.counter + b.counter → a.counter + b.counter < U32MOD →
        a.ship_average.shield_points < U32MOD → b.ship_average.shield_points < U32MOD →
        a.ship_average.shield_points * a.counter < 9223372036854775808 →
        b.ship_average.shield_points * b.counter < 9223372036854775808 →
        (a.merge b).ship_average.shield_points
          = a.ship_average.shield_points * a.counter / (a.counter + b.counter)
            + b.ship_average.shield_points * b.counter / (a.counter + b.counter)
        ∧ (a.merge b).ship_average.shield_points
            ≤ (a.ship_average.shield_points * a.counter
                + b.ship_average.shield_points * b.counter) / (a.counter + b.counter)
        ∧ (a.ship_average.shield_points * a.counter
            + b.ship_average.shield_points * b.counter) / (a.counter + b.counter)
          ≤ (a.merge b).ship_average.shield_points + 1)
    ∧ (∀ a b : RepeatedShip, a.same_template b = false →
        a.checked_merge b = (a, some b)) := by
  refine ⟨fun a b hU => ?_, fun a b h0 hU hva hvb hpa hpb => ?_,
    fun a b h0 hU hva hvb hpa hpb => ?_,
    fun a b h0 hU hva hvb hpa hpb => ?_, fun a b hne => ?_⟩
  · rw [(merge_proj a b).1]
    exact Nat.mod_eq_of_lt hU
  · have hA := (merge_proj a b).2.1.trans
      (mergeField_exact _ a.counter _ b.counter hva hvb hpa hpb h0 hU)
    exact ⟨hA, by rw [hA]; exact div_add_div_le _ _ _,
      by rw [hA]; exact div_add_div_ge _ _ _ h0⟩
  · have hA := (merge_proj a b).2.2.1.trans
      (mergeField_exact _ a.counter _ b.counter hva hvb hpa hpb h0 hU)
    exact ⟨hA, by rw [hA]; exact div_add_div_le _ _ _,
      by rw [hA]; exact div_add_div_ge _ _ _ h0⟩
  · have hA := (merge_proj a b).2.2.2.trans
      (mergeField_exact _ a.counter _ b.counter hva hvb hpa hpb h0 hU)
    exact ⟨hA, by rw [hA]; exact div_add_div_le _ _ _,
      by rw [hA]; exact div_add_div_ge _ _ _ h0⟩
  · unfold RepeatedShip.checked_merge
    rw [hne]
    simp

/-- C6 (witness): the hull conjunct applied to the two one-ship hull-1
groups of the counterexample (all wrap-free hypotheses discharged by
evaluation: counts sum to 2, products are 1), and the checked-merge
conjunct applied to groups over distinct templates. -/
theorem C6_weighted_merge_witness :
    ((RepeatedShip.mk (Ship.mk tinyTemplate 0 1 0) 1).merge
        (RepeatedShip.mk (Ship.mk tinyTemplate 0 1 0) 1)).ship_average.hull_points
      = 1 * 1 / (1 + 1) + 1 * 1 / (1 + 1)
    ∧ (1 * 1 + 1 * 1) / (1 + 1)
        ≤ ((RepeatedShip.mk (Ship.mk tinyTemplate 0 1 0) 1).merge
            (RepeatedShip.mk (Ship.mk tinyTemplate 0 1 0) 1)).ship_average.hull_points + 1
    ∧ (RepeatedShip.mk (Ship.mk tinyTemplate 0 1 0) 1).checked_merge
        (RepeatedShip.mk (Ship.mk scenarioTemplate 0 1 0) 1)
        = (RepeatedShip.mk (Ship.mk tinyTemplate 0 1 0) 1,
            some (RepeatedShip.mk (Ship.mk scenarioTemplate 0 1 0) 1)) :=
  ⟨(C6_weighted_merge.2.2.1 (RepeatedShip.mk (Ship.mk tinyTemplate 0 1 0) 1)
      (RepeatedShip.mk (Ship.mk tinyTemplate 0 1 0) 1) (by decide) (by decide)
      (by decide) (by decide) (by decide) (by decide)).1,
    (C6_weighted_merge.2.2.1 (RepeatedShip.mk (Ship.mk tinyTemplate 0 1 0) 1)
      (RepeatedShip.mk (Ship.mk tinyTemplate 0 1 0) 1) (by decide) (by decide)
      (by decide) (by decide) (by decide) (by decide)).2.2,
    C6_weighted_merge.2.2.2.2 (RepeatedShip.mk (Ship.mk tinyTemplate 0 1 0) 1)
      (RepeatedShip.mk (Ship.mk scenarioTemplate 0 1 0) 1) (by decide)⟩

/-! ## C7 — fleet-level attack resolution -/

/-- C7 (code bug, evaluated at the failing input): a fleet of two non-empty
groups (one ship each, size class 1) against a pool holding one damage entry
of 50 aimed at size 1. A valid target exists in the front group, yet
`Fleet::resolve_attacks` leaves every group and the damage entry unchanged —
the inner loop of `ShipGroup::resolve_attacks` breaks immediately because
its exit test reads `valid_types != 0` where only `valid_types == 0` can
make progress — and the front group's `for_each` consumes the entire shared
iterator (its second component below lists every entry it visited), so the
back group receives no entries at all instead of the unconsumed damage. -/
theorem C7_no_damage_applied :
    (Fleet.mk [⟨[⟨Ship.mk tinyTemplate 0 1 0, 1⟩]⟩, ⟨[⟨Ship.mk tinyTemplate 0 1 0, 1⟩]⟩]).resolve_attacks
        [⟨1, 50⟩]
      = (⟨[⟨[⟨Ship.mk tinyTemplate 0 1 0, 1⟩]⟩, ⟨[⟨Ship.mk tinyTemplate 0 1 0, 1⟩]⟩]⟩, [⟨1, 50⟩])
    ∧ ((ShipGroup.mk [⟨Ship.mk tinyTemplate 0 1 0, 1⟩]).resolve_attacks [⟨1, 50⟩]).2
      = [⟨1, 50⟩]
    ∧ tinyTemplate.is_valid_for ⟨1, 50⟩ = true := by
  decide

/-! ## C8 — weapon-set validation -/

/-- C8 (code bug, evaluated at the failing input): `ReducedWeapon::new`
accepts a weapon set containing a weapon with zero damage per attack — both
as a singleton list and at index 0 of a longer list — because the
zero-damage and zero-attacks checks inside the nested loops are applied to
`weapons[j]` with `j > i` only, so `weapons[0]` is never checked; its own
doc comment promises "No `DistinctWeapon` does 0 damage". -/
theorem C8_malformed_accepted :
    ReducedWeapon.new [⟨0, 0, 2⟩] = .ok ⟨[⟨0, 0, 2⟩]⟩
    ∧ ReducedWeapon.new [⟨0, 0, 2⟩, ⟨1, 2, 3⟩] = .ok ⟨[⟨0, 0, 2⟩, ⟨1, 2, 3⟩]⟩ :=
  ⟨rfl, rfl⟩

/-! ## C9 — template-cache eviction -/

/-- A load oracle for the C9 cache experiments: every name loads
successfully (the loaded template's contents are irrelevant to eviction). -/
def alwaysLoad : String → Option ShipTemplate :=
  fun _ => some tinyTemplate

/-- Cache contents after getting "a", "b", "c", "d" in order through an
initially empty `TemplateBuf` with `max_loaded = 2`. -/
def C9cache : TemplateBuf :=
  (((((TemplateBuf.mk [] 2).get alwaysLoad "a").1.get alwaysLoad "b").1.get
      alwaysLoad "c").1.get alwaysLoad "d").1

/-- C9 (counterexample): with `max_loaded = 2`, loading "a", "b", "c", "d"
in order ends with the cache holding `["d", "b"]`. FIFO over all insertions
would evict "a" then "b" (leaving `["c", "d"]`); the code instead always
overwrites slot 0, so the second eviction removes "c" — the *most recently*
inserted entry — while "b", inserted before "c", survives. -/
theorem C9_counterexample :
    C9cache.templates.map Prod.fst = ["d", "b"]
    ∧ ¬ "c" ∈ C9cache.templates.map Prod.fst := by
  decide

/-- C9 (amended): when the name is not cached, the load succeeds and the
cache already holds `max_loaded` entries, the new template is returned and
stored by overwriting slot 0 of the cache. Slot 0 holds the oldest entry
only until the first eviction; afterwards it holds the most recent load, so
only the first eviction is FIFO. -/
theorem C9_slot0_eviction (buf : TemplateBuf) (load : String → Option ShipTemplate)
    (name : String) (t : ShipTemplate)
    (hmiss : buf.templates.find? (fun e => e.1 == name) = none)
    (hload : load name = some t)
    (hfull : buf.max_loaded = buf.templates.length) :
    buf.get load name
      = ({ buf with templates := buf.templates.set 0 (name, t) }, some t) := by
  unfold TemplateBuf.get TemplateBuf.loaded
  rw [hmiss, hload]
  simp [hfull]

/-- C9 (witness): the amended theorem applied to a full two-entry cache. -/
theorem C9_slot0_eviction_witness :
    (TemplateBuf.mk [("a", tinyTemplate), ("b", tinyTemplate)] 2).get alwaysLoad "c"
      = (TemplateBuf.mk [("c", tinyTemplate), ("b", tinyTemplate)] 2,
          some tinyTemplate) :=
  C9_slot0_eviction _ _ _ _ (by decide) rfl rfl

/-! ## C10 — empty groups are transparent to damage -/

/-- C10: a `ReducedShip` whose count is 0 passes any damage through
unchanged and is itself left entirely unchanged: `min 0 d = 0` schedules no
loop passes, and the dead group skips the averaging step. -/
theorem C10_empty_group_frame (s : Ship) (d : Nat) :
    (ReducedShip.mk s 0).resolve_damage d = (ReducedShip.mk s 0, d) := by
  simp [ReducedShip.resolve_damage, ReducedShip.resolveLoop, ReducedShip.is_alive]

end TheBrass
